import Mathlib

/-!
# Verification of the vigilant-sentinel fraud-detection pipeline

Shallow embedding of the fraud-detection backend:
transaction analyzers, risk aggregation and severity classification
(`backend/agents/fraud_detection_agent.py`), the threat-response
executor (`backend/agents/threat_response_agent.py`), and the HTTP
handler layer with its shared application state (`backend/main.py`).

Modelling conventions:
* Python floats that hold risk scores are modelled as exact rationals
  (`ℚ`); all score constants in the source are short decimal literals.
* Wall-clock fields (`datetime.now()` timestamps, response latency in
  milliseconds) are omitted: no claim concerns them and they are not
  statable in a pure embedding.
* The narrative text returned by the external Bedrock service is an
  opaque string parameter (`ai_reasoning` / `ai_response`); the source
  wraps the transport call in its own try/except and always yields a
  string, never an exception.
* Parsing an ISO-8601 timestamp is done by the Python standard library
  (`datetime.fromisoformat`), external to this repository; the embedding
  takes the parse outcome as `Option Nat` (the parsed hour; `none`
  models a parse failure) or, at pipeline level, an oracle function
  `String → Option Nat`.
* Each analyzer's Python dict result carries presentation-only keys
  (`analysis_type`, `details`, echoes of the inputs); downstream code
  reads only `risk_factors` and `risk_score` (plus, for the velocity
  analyzer, `recent_transaction_count`), so the embedding keeps exactly
  the consumed fields.
-/

namespace VigilantSentinel

/-- Python substring test `needle in hay` (case-sensitive, as used by the
location analyzer and the fallback rule). -/
def strContains (hay needle : String) : Bool := go hay.data where
  go : List Char → Bool
  | [] => needle.data.isEmpty
  | c :: rest => needle.data.isPrefixOf (c :: rest) || go rest

/-- Python `str.lower()`: lowercase a string character by character. -/
def strLower (s : String) : String := ⟨s.data.map Char.toLower⟩

/-- `TransactionData` (fraud_detection_agent.py lines 31-40 / main.py lines 36-45). -/
structure TransactionData where
  id : String
  user_id : String
  amount : ℚ
  merchant : String
  location : String
  timestamp : String
  device_id : String
  ip_address : String
  card_type : String
deriving DecidableEq, Repr

/-- The part of an analyzer's result dict consumed by the aggregation loop
(`risk_factors` and `risk_score`). -/
structure AnalysisResult where
  risk_factors : List String
  risk_score : ℚ
deriving DecidableEq, Repr

/-- Base tier of `analyze_transaction_amount` (lines 86-91):
0.3 above 5000, else 0.1 above 1000, else 0. -/
def amount_tier_score (amount : ℚ) : ℚ :=
  if amount > 5000 then 0.3 else if amount > 1000 then 0.1 else 0

/-- Factor attached with the amount tier (lines 87, 90). -/
def amount_tier_factors (amount : ℚ) : List String :=
  if amount > 5000 then ["High transaction amount (>$5000)"]
  else if amount > 1000 then ["Elevated transaction amount (>$1000)"]
  else []

/-- Python `amount % 100 == 0` on a non-negative decimal amount: the amount
is an exact multiple of 100, i.e. `amount / 100` is an integer. -/
def isRoundAmount (amount : ℚ) : Bool := (amount / 100).den = 1

/-- Round-amount bonus of `analyze_transaction_amount` (lines 93-95). -/
def amount_round_bonus (amount : ℚ) : ℚ := if isRoundAmount amount then 0.05 else 0

/-- `analyze_transaction_amount` (lines 78-103): tier contribution plus
round-amount bonus, score clamped by `min(risk_score, 1.0)`. -/
def analyze_transaction_amount (amount : ℚ) (_user_id : String) : AnalysisResult :=
  { risk_factors := amount_tier_factors amount ++
      (if isRoundAmount amount then ["Round amount transaction"] else [])
    risk_score := min (amount_tier_score amount + amount_round_bonus amount) 1 }

/-- `high_risk_locations` (line 113). -/
def high_risk_locations : List String := ["Unknown", "Foreign", "High-risk country"]

/-- `analyze_location_pattern` (lines 105-129): 0.4 if the location contains
any high-risk substring, plus 0.1 if it contains "ATM"; clamped. -/
def analyze_location_pattern (location : String) (_user_id : String) : AnalysisResult :=
  let hr := high_risk_locations.any (fun risk_loc => strContains location risk_loc)
  let atm := strContains location "ATM"
  { risk_factors :=
      (if hr then ["High-risk location: " ++ location] else []) ++
      (if atm then ["ATM transaction"] else [])
    risk_score := min ((if hr then (0.4 : ℚ) else 0) + (if atm then 0.1 else 0)) 1 }

/-- `analyze_device_pattern` (lines 131-149): 0.3 for the "unknown" or
"new_device" sentinel identifiers; clamped. -/
def analyze_device_pattern (device_id : String) (_user_id : String) : AnalysisResult :=
  let sentinel := device_id = "unknown" ∨ device_id = "new_device"
  { risk_factors := if sentinel then ["Unknown or new device"] else []
    risk_score := min (if sentinel then (0.3 : ℚ) else 0) 1 }

/-- `analyze_time_pattern` (lines 151-180). The ISO-8601 parse
(`datetime.fromisoformat`, Python standard library) is external; the
embedding takes its outcome: `some hour` on success, `none` when the
timestamp cannot be parsed (the source's `except` branch). The function is
total: both branches return a result, nothing is raised. -/
def analyze_time_pattern (parsed_hour : Option Nat) : AnalysisResult :=
  match parsed_hour with
  | some hour =>
      if hour < 6 ∨ hour > 23 then
        { risk_factors := ["Unusual transaction time: " ++ toString hour ++ ":00"]
          risk_score := min (0.2 : ℚ) 1 }
      else
        { risk_factors := [], risk_score := min (0 : ℚ) 1 }
  | none =>
      { risk_factors := ["Invalid timestamp format"]
        risk_score := min (0.1 : ℚ) 1 }

/-- The velocity analyzer's result dict also exposes its simulated
`recent_transaction_count` (line 203). -/
structure VelocityResult where
  recent_transaction_count : Nat
  risk_factors : List String
  risk_score : ℚ
deriving DecidableEq, Repr

/-- `check_velocity_patterns` (lines 182-207): the recent-transaction count
is the hard-coded simulation constant 3 (line 191, `# Simulated count`);
0.4 above 5, else 0.2 above 2; clamped. -/
def check_velocity_patterns (_user_id : String) (_current_amount : ℚ) : VelocityResult :=
  let recent_transactions : Nat := 3
  let fs : List String × ℚ :=
    if recent_transactions > 5 then
      (["High transaction velocity (>5 transactions recently)"], 0.4)
    else if recent_transactions > 2 then
      (["Elevated transaction velocity"], 0.2)
    else ([], 0)
  { recent_transaction_count := recent_transactions
    risk_factors := fs.1
    risk_score := min fs.2 1 }

/-- View of a velocity result as the pair consumed by the aggregation loop. -/
def VelocityResult.toAnalysisResult (v : VelocityResult) : AnalysisResult :=
  { risk_factors := v.risk_factors, risk_score := v.risk_score }

/-- `FraudAlert` (fraud_detection_agent.py lines 22-29), without the
wall-clock `timestamp` field. -/
structure FraudAlert where
  transaction_id : String
  risk_score : ℚ
  risk_factors : List String
  severity : String
  recommended_action : String
  agent_reasoning : String
deriving DecidableEq, Repr

/-- Severity / recommended-action ladder of `process_transaction_alert`
(lines 327-343), evaluated high-to-low, first match wins. -/
def classify_severity (final_risk_score : ℚ) : String × String :=
  if final_risk_score ≥ 0.7 then ("CRITICAL", "BLOCK_TRANSACTION_AND_FREEZE_ACCOUNT")
  else if final_risk_score ≥ 0.5 then ("HIGH", "REQUIRE_ADDITIONAL_VERIFICATION")
  else if final_risk_score ≥ 0.3 then ("MEDIUM", "REQUIRE_BASIC_VERIFICATION")
  else ("LOW", "MONITOR_ONLY")

/-- Successful path of `process_transaction_alert` (lines 209-370): runs the
five analyzers in the fixed order amount, location, device, time, velocity,
extends the factor list and sums the scores over that list (lines 265-279),
clamps the sum with `min(total_risk_score, 1.0)` (line 282), classifies,
and builds the `FraudAlert`. `parse_hour` is the external timestamp-parse
oracle and `ai_reasoning` the narrative string returned from Bedrock. -/
def process_transaction_alert (parse_hour : String → Option Nat) (ai_reasoning : String)
    (transaction_data : TransactionData) : FraudAlert :=
  let amount_analysis := analyze_transaction_amount transaction_data.amount transaction_data.user_id
  let location_analysis := analyze_location_pattern transaction_data.location transaction_data.user_id
  let device_analysis := analyze_device_pattern transaction_data.device_id transaction_data.user_id
  let time_analysis := analyze_time_pattern (parse_hour transaction_data.timestamp)
  let velocity_analysis :=
    (check_velocity_patterns transaction_data.user_id transaction_data.amount).toAnalysisResult
  let analyses : List AnalysisResult :=
    [amount_analysis, location_analysis, device_analysis, time_analysis, velocity_analysis]
  let all_risk_factors : List String := (analyses.map (·.risk_factors)).flatten
  let total_risk_score : ℚ := (analyses.map (·.risk_score)).sum
  let final_risk_score : ℚ := min total_risk_score 1
  let decision := classify_severity final_risk_score
  { transaction_id := transaction_data.id
    risk_score := final_risk_score
    risk_factors := all_risk_factors
    severity := decision.1
    recommended_action := decision.2
    agent_reasoning := ai_reasoning }

/-- `_fallback_fraud_alert` (lines 378-405): simple rule-based fallback.
0.3 for amount above 1000, plus 0.2 when the lowercased location contains
"unknown"; `MEDIUM`/`REQUIRE_BASIC_VERIFICATION` exactly when the
accumulated score is strictly greater than 0.3, else `LOW`/`MONITOR_ONLY`. -/
def fallback_fraud_alert (transaction_data : TransactionData) : FraudAlert :=
  let risk_score : ℚ :=
    (if transaction_data.amount > 1000 then 0.3 else 0) +
    (if strContains (strLower transaction_data.location) "unknown" then 0.2 else 0)
  let risk_factors : List String :=
    (if transaction_data.amount > 1000 then ["High amount transaction (fallback)"] else []) ++
    (if strContains (strLower transaction_data.location) "unknown"
      then ["Unknown location (fallback)"] else [])
  { transaction_id := transaction_data.id
    risk_score := min risk_score 1
    risk_factors := risk_factors
    severity := if risk_score > 0.3 then "MEDIUM" else "LOW"
    recommended_action := if risk_score > 0.3 then "REQUIRE_BASIC_VERIFICATION" else "MONITOR_ONLY"
    agent_reasoning := "Fallback analysis used due to agent error" }

/-- The try/except wrapper of `process_transaction_alert` (lines 225, 372-376):
the pipeline outcome is abstracted as an `Except`; on any pipeline-stage
error the function returns the fallback alert instead of raising. -/
def process_transaction_alert_guarded (pipeline : Except String FraudAlert)
    (transaction_data : TransactionData) : FraudAlert :=
  match pipeline with
  | .ok alert => alert
  | .error _ => fallback_fraud_alert transaction_data

/-- The fields of the alert dict that `execute_threat_response` extracts with
`.get` (threat_response_agent.py lines 172-177). `user_id` is optional
because the alert dict built by `respond_to_alert` in main.py omits it; the
executor then falls back to the default "unknown". -/
structure AlertData where
  transaction_id : String
  user_id : Option String
  risk_score : ℚ
  risk_factors : List String
  severity : String
deriving DecidableEq, Repr

/-- `ThreatResponse` (threat_response_agent.py lines 22-28), without the
wall-clock `timestamp` and `response_time_ms` fields. -/
structure ThreatResponse where
  alert_id : String
  actions_taken : List String
  status : String
  agent_reasoning : String
deriving DecidableEq, Repr

/-- `execute_threat_response` (threat_response_agent.py lines 154-298):
selects the action branch from the alert's risk score (thresholds 0.7, 0.5,
0.3, evaluated high-to-low) and records the human-readable description of
each executed action in order. `ai_response` is the narrative string from
Bedrock; it never influences the branch. -/
def execute_threat_response (alert_id : String) (fraud_alert : AlertData)
    (ai_response : String) : ThreatResponse :=
  let risk_score := fraud_alert.risk_score
  let transaction_id := fraud_alert.transaction_id
  let user_id := fraud_alert.user_id.getD "unknown"
  let actions_taken : List String :=
    if risk_score ≥ 0.7 then
      ["Blocked transaction " ++ transaction_id,
       "Froze account " ++ user_id ++ " for 24 hours",
       "Sent urgent fraud alert to " ++ user_id,
       "Logged critical security event"]
    else if risk_score ≥ 0.5 then
      ["Required 2FA verification for " ++ user_id,
       "Sent security alert to " ++ user_id,
       "Logged high-risk security event"]
    else if risk_score ≥ 0.3 then
      ["Required SMS verification for " ++ user_id,
       "Logged medium-risk security event"]
    else
      ["Logged low-risk security event"]
  { alert_id := alert_id
    actions_taken := actions_taken
    status := "completed"
    agent_reasoning := ai_response }

/-- Per-stage counters of `app_state.agent_metrics` (main.py lines 78-82),
without the wall-clock `last_activity` string. -/
structure AgentCounters where
  processed : Nat
  errors : Nat
deriving DecidableEq, Repr

/-- `ApplicationState` (main.py lines 75-87): alert store (dict modelled as
an association list), per-stage metrics, observer set, transaction queue. -/
structure ApplicationState where
  active_alerts : List (String × FraudAlert)
  fraud_detection : AgentCounters
  threat_response : AgentCounters
  case_manager : AgentCounters
  websocket_connections : List String
  transaction_queue : List TransactionData
deriving DecidableEq, Repr

/-- The initial application state built by `ApplicationState.__init__`. -/
def initial_state : ApplicationState :=
  { active_alerts := []
    fraud_detection := ⟨0, 0⟩
    threat_response := ⟨0, 0⟩
    case_manager := ⟨0, 0⟩
    websocket_connections := []
    transaction_queue := [] }

/-- Python dict assignment `d[k] = v`: overwrite the entry for `k` when it
exists, otherwise append a new entry. -/
def dictInsert (m : List (String × FraudAlert)) (k : String) (v : FraudAlert) :
    List (String × FraudAlert) :=
  if (m.lookup k).isSome then
    m.map (fun p => if p.1 = k then (k, v) else p)
  else m ++ [(k, v)]

/-- A client-visible `HTTPException`. -/
structure HttpError where
  status_code : Nat
  detail : String
deriving DecidableEq, Repr

/-- The JSON body returned by `analyze_transaction` on success
(main.py lines 343-350), without the wall-clock timestamp. -/
structure AnalyzeResponse where
  status : String
  transaction_id : String
  message : String
  alert_generated : Bool
  risk_score : ℚ
deriving DecidableEq, Repr

/-- `POST /api/transactions/analyze` (`analyze_transaction`, main.py lines
321-354). The handler generates the alert, increments the fraud-detection
processed counter and stores the alert; the next statement,
`await app_state.transaction_queue.put(transaction_data)` (line 341), reads
the name `transaction_data`, which is not defined in that scope (the
parameter is named `transaction`), so Python raises `NameError`; the
handler's `except Exception` clause converts it into
`HTTPException(status_code=500, detail=str(e))`. The mutations made before
the raise persist, the record is never enqueued, and the caller always
receives the 500 error instead of the summary body. -/
def analyze_transaction (parse_hour : String → Option Nat) (ai_reasoning : String)
    (s : ApplicationState) (transaction : TransactionData) :
    ApplicationState × Except HttpError AnalyzeResponse :=
  let alert := process_transaction_alert parse_hour ai_reasoning transaction
  let s1 : ApplicationState :=
    { s with
      fraud_detection := { s.fraud_detection with processed := s.fraud_detection.processed + 1 }
      active_alerts := dictInsert s.active_alerts alert.transaction_id alert }
  (s1, .error { status_code := 500, detail := "NameError: name transaction_data is not defined" })

/-- The JSON body returned by `respond_to_alert` on success
(main.py lines 415-421), without the wall-clock timestamp. -/
structure RespondResponse where
  status : String
  alert_id : String
  message : String
  response_details : ThreatResponse
deriving DecidableEq, Repr

/-- `POST /api/alerts/{alert_id}/respond` (`respond_to_alert`, main.py lines
377-426). When the identifier is absent from the alert store, the handler
raises `HTTPException(404, "Alert not found")` (line 382) inside its own
`try`; the blanket `except Exception` clause (lines 423-426) catches it,
increments the threat-response error counter, and re-raises
`HTTPException(status_code=500, detail=str(e))`, where `str` of the 404
exception renders as "404: Alert not found". When the identifier is
present, the handler rebuilds the alert dict (without a `user_id` key),
executes the threat response, and increments the processed counter. -/
def respond_to_alert (s : ApplicationState) (alert_id : String) (ai_response : String) :
    ApplicationState × Except HttpError RespondResponse :=
  match s.active_alerts.lookup alert_id with
  | none =>
      ({ s with
          threat_response := { s.threat_response with errors := s.threat_response.errors + 1 } },
       .error { status_code := 500, detail := "404: Alert not found" })
  | some alert =>
      let alert_data : AlertData :=
        { transaction_id := alert.transaction_id
          user_id := none
          risk_score := alert.risk_score
          risk_factors := alert.risk_factors
          severity := alert.severity }
      let response_result := execute_threat_response alert_id alert_data ai_response
      ({ s with
          threat_response := { s.threat_response with processed := s.threat_response.processed + 1 } },
       .ok { status := "success"
             alert_id := alert_id
             message := "Automated threat response executed"
             response_details := response_result })

/-- A concrete critical alert record used to witness C2. -/
def c2_alert : AlertData :=
  { transaction_id := "tx1", user_id := some "u1", risk_score := 0.8,
    risk_factors := ["f"], severity := "CRITICAL" }

/-- Concrete transaction with a high amount but a known location. -/
def c6_txn : TransactionData :=
  { id := "txn_c6", user_id := "user_9", amount := 2000, merchant := "Store",
    location := "New York, NY", timestamp := "2024-01-01T12:00:00",
    device_id := "device_1", ip_address := "10.0.0.2", card_type := "debit" }

/-- The scenario-2 transaction of the spec: amount 50, location
"New York, NY", device "device_123", timestamp at 14:00, and an (ignored)
externally supplied velocity count of 1. -/
def scenario2_txn : TransactionData :=
  { id := "txn_s2", user_id := "user_1", amount := 50, merchant := "Coffee",
    location := "New York, NY", timestamp := "2024-01-15T14:00:00",
    device_id := "device_123", ip_address := "10.0.0.1", card_type := "credit" }

/-- The scenario-2 timestamp parses to hour 14. -/
def scenario2_parse : String → Option Nat := fun _ => some 14

/-- The alert the pipeline produces for scenario 2. -/
def scenario2_alert : FraudAlert :=
  process_transaction_alert scenario2_parse "narrative" scenario2_txn

/-! ## Theorems -/

/-- The round-amount test holds exactly for integer multiples of 100
(helper characterization of `isRoundAmount`). -/
theorem isRoundAmount_iff (a : ℚ) : isRoundAmount a = true ↔ ∃ k : ℤ, a = 100 * k := by
  unfold isRoundAmount
  rw [decide_eq_true_eq, Rat.den_eq_one_iff]
  constructor
  · intro h
    exact ⟨(a / 100).num, by rw [h]; ring⟩
  · rintro ⟨k, rfl⟩
    have h : (100 : ℚ) * k / 100 = (k : ℚ) := by ring
    rw [h, Rat.num_intCast]

/-- 50 is not a multiple of 100 (helper). -/
theorem isRoundAmount_fifty : isRoundAmount 50 = false := by
  rw [Bool.eq_false_iff]
  intro h
  obtain ⟨k, hk⟩ := (isRoundAmount_iff 50).mp h
  have h2 : ((2 * k : ℤ) : ℚ) = 1 := by push_cast; linarith
  have h3 : (2 * k : ℤ) = 1 := by exact_mod_cast h2
  omega

/-- The velocity analyzer's score always evaluates to 0.2 (helper). -/
theorem velocity_score_eq (u : String) (amt : ℚ) :
    (check_velocity_patterns u amt).risk_score = 0.2 := by
  show min (0.2 : ℚ) 1 = 0.2
  norm_num

/-- The pipeline's aggregate score is the clamped five-way sum (helper). -/
theorem process_score_eq (p : String → Option Nat) (ai : String) (t : TransactionData) :
    (process_transaction_alert p ai t).risk_score =
      min ((analyze_transaction_amount t.amount t.user_id).risk_score +
           (analyze_location_pattern t.location t.user_id).risk_score +
           (analyze_device_pattern t.device_id t.user_id).risk_score +
           (analyze_time_pattern (p t.timestamp)).risk_score +
           (check_velocity_patterns t.user_id t.amount).risk_score) 1 := by
  simp only [process_transaction_alert, VelocityResult.toAnalysisResult,
    List.map_cons, List.map_nil, List.sum_cons, List.sum_nil, add_zero]
  congr 1
  ring

/-- The stored severity is the classifier's tier at the stored score (helper). -/
theorem process_severity_eq (p : String → Option Nat) (ai : String) (t : TransactionData) :
    (process_transaction_alert p ai t).severity =
      (classify_severity ((process_transaction_alert p ai t).risk_score)).1 := rfl

/-- The stored action is the classifier's action at the stored score (helper). -/
theorem process_action_eq (p : String → Option Nat) (ai : String) (t : TransactionData) :
    (process_transaction_alert p ai t).recommended_action =
      (classify_severity ((process_transaction_alert p ai t).risk_score)).2 := rfl

/-- The merged factor list is the five analyzers' lists concatenated in
invocation order (helper). -/
theorem process_factors_eq (p : String → Option Nat) (ai : String) (t : TransactionData) :
    (process_transaction_alert p ai t).risk_factors =
      (analyze_transaction_amount t.amount t.user_id).risk_factors ++
      (analyze_location_pattern t.location t.user_id).risk_factors ++
      (analyze_device_pattern t.device_id t.user_id).risk_factors ++
      (analyze_time_pattern (p t.timestamp)).risk_factors ++
      (check_velocity_patterns t.user_id t.amount).risk_factors := by
  simp only [process_transaction_alert, VelocityResult.toAnalysisResult,
    List.map_cons, List.map_nil, List.flatten_cons, List.flatten_nil,
    List.append_nil, List.append_assoc]

/-- The fallback's severity as a formula in the two rule conditions (helper). -/
theorem fallback_severity (t : TransactionData) :
    (fallback_fraud_alert t).severity =
      (if ((if t.amount > 1000 then (0.3 : ℚ) else 0) +
           (if strContains (strLower t.location) "unknown" then (0.2 : ℚ) else 0)) > 0.3
       then "MEDIUM" else "LOW") := rfl

/-- The fallback's recommended action as a formula in the two rule
conditions (helper). -/
theorem fallback_action (t : TransactionData) :
    (fallback_fraud_alert t).recommended_action =
      (if ((if t.amount > 1000 then (0.3 : ℚ) else 0) +
           (if strContains (strLower t.location) "unknown" then (0.2 : ℚ) else 0)) > 0.3
       then "REQUIRE_BASIC_VERIFICATION" else "MONITOR_ONLY") := rfl

/-- C10: the velocity analyzer is a constant function of its inputs — for
every user identifier and every amount it reports a recent-transaction
count of 3 and returns risk contribution exactly 0.2 with the single factor
"Elevated transaction velocity"; no externally supplied velocity count
influences its output. -/
theorem check_velocity_patterns_constant (user_id : String) (current_amount : ℚ) :
    (check_velocity_patterns user_id current_amount).recent_transaction_count = 3 ∧
    (check_velocity_patterns user_id current_amount).risk_factors =
      ["Elevated transaction velocity"] ∧
    (check_velocity_patterns user_id current_amount).risk_score = 0.2 := by
  refine ⟨rfl, rfl, ?_⟩
  show min (0.2 : ℚ) 1 = 0.2
  norm_num

/-- C8: the time analyzer is total (both parse outcomes return a result,
nothing is raised): a failed parse yields contribution 0.1 with the
parse-failure factor, and a parsed hour yields contribution 0.2 exactly
when the hour is before 06:00 or after 23:00, and 0.0 otherwise. -/
theorem analyze_time_pattern_total (hour : Nat) :
    (analyze_time_pattern none).risk_score = 0.1 ∧
    (analyze_time_pattern none).risk_factors = ["Invalid timestamp format"] ∧
    (analyze_time_pattern (some hour)).risk_score =
      (if hour < 6 ∨ hour > 23 then 0.2 else 0) ∧
    ((analyze_time_pattern (some hour)).risk_score = 0.2 ↔ (hour < 6 ∨ hour > 23)) ∧
    (analyze_time_pattern (some hour)).risk_factors =
      (if hour < 6 ∨ hour > 23
        then ["Unusual transaction time: " ++ toString hour ++ ":00"] else []) := by
  have hred : analyze_time_pattern (some hour) =
      if hour < 6 ∨ hour > 23 then
        { risk_factors := ["Unusual transaction time: " ++ toString hour ++ ":00"]
          risk_score := min (0.2 : ℚ) 1 }
      else { risk_factors := [], risk_score := min (0 : ℚ) 1 } := rfl
  have m2 : min (0.2 : ℚ) 1 = 0.2 := by norm_num
  have m0 : min (0 : ℚ) 1 = 0 := by norm_num
  refine ⟨?_, rfl, ?_, ?_, ?_⟩
  · show min (0.1 : ℚ) 1 = 0.1
    norm_num
  · by_cases h : hour < 6 ∨ hour > 23 <;> simp [hred, h, m2, m0]
  · by_cases h : hour < 6 ∨ hour > 23 <;> simp [hred, h, m2, m0] <;> norm_num
  · by_cases h : hour < 6 ∨ hour > 23 <;> simp [hred, h]

/-- C9: for amounts `0 ≤ a`, the amount-signal contribution lies in
[0, 0.35], decomposes as the clamped sum of the breakpoint tier (0.3 above
5000, else 0.1 above 1000, else 0) and the round-amount bonus, and the
tier part is monotonically non-decreasing in the amount. -/
theorem analyze_transaction_amount_bounds_mono (user_id : String) (a b : ℚ)
    (ha : 0 ≤ a) (hab : a ≤ b) :
    0 ≤ (analyze_transaction_amount a user_id).risk_score ∧
    (analyze_transaction_amount a user_id).risk_score ≤ 0.35 ∧
    (analyze_transaction_amount a user_id).risk_score =
      min (amount_tier_score a + amount_round_bonus a) 1 ∧
    amount_tier_score a ≤ amount_tier_score b := by
  have htier : 0 ≤ amount_tier_score a ∧ amount_tier_score a ≤ 0.3 := by
    unfold amount_tier_score; split_ifs <;> norm_num
  have hbonus : 0 ≤ amount_round_bonus a ∧ amount_round_bonus a ≤ 0.05 := by
    unfold amount_round_bonus; split_ifs <;> norm_num
  refine ⟨?_, ?_, rfl, ?_⟩
  · exact le_min (by linarith [htier.1, hbonus.1]) (by norm_num)
  · calc (analyze_transaction_amount a user_id).risk_score
        ≤ amount_tier_score a + amount_round_bonus a := min_le_left _ _
      _ ≤ 0.35 := by linarith [htier.2, hbonus.2]
  · unfold amount_tier_score
    split_ifs <;> linarith

/-- Witness for C9 at the concrete pair a = 0, b = 2000. -/
theorem analyze_transaction_amount_bounds_mono_witness :
    0 ≤ (analyze_transaction_amount 0 "user_1").risk_score ∧
    (analyze_transaction_amount 0 "user_1").risk_score ≤ 0.35 ∧
    (analyze_transaction_amount 0 "user_1").risk_score =
      min (amount_tier_score 0 + amount_round_bonus 0) 1 ∧
    amount_tier_score 0 ≤ amount_tier_score 2000 :=
  analyze_transaction_amount_bounds_mono "user_1" 0 2000 (by norm_num) (by norm_num)

/-- C1: the severity classifier is a pure total function of the score: the
four threshold ranges cover every score in [0,1] (and are disjoint by
arithmetic), each range maps to its tier and action with boundaries closed
above, and in particular 0.70 is CRITICAL while 0.6999 is HIGH. -/
theorem classify_severity_ladder (s : ℚ) (h0 : 0 ≤ s) (h1 : s ≤ 1) :
    (0.7 ≤ s ∨ (0.5 ≤ s ∧ s < 0.7) ∨ (0.3 ≤ s ∧ s < 0.5) ∨ s < 0.3) ∧
    (0.7 ≤ s → classify_severity s = ("CRITICAL", "BLOCK_TRANSACTION_AND_FREEZE_ACCOUNT")) ∧
    (0.5 ≤ s → s < 0.7 → classify_severity s = ("HIGH", "REQUIRE_ADDITIONAL_VERIFICATION")) ∧
    (0.3 ≤ s → s < 0.5 → classify_severity s = ("MEDIUM", "REQUIRE_BASIC_VERIFICATION")) ∧
    (s < 0.3 → classify_severity s = ("LOW", "MONITOR_ONLY")) ∧
    classify_severity 0.7 = ("CRITICAL", "BLOCK_TRANSACTION_AND_FREEZE_ACCOUNT") ∧
    classify_severity 0.6999 = ("HIGH", "REQUIRE_ADDITIONAL_VERIFICATION") := by
  refine ⟨?_, ?_, ?_, ?_, ?_, ?_, ?_⟩
  · rcases le_or_lt 0.7 s with h | h
    · exact Or.inl h
    rcases le_or_lt 0.5 s with h5 | h5
    · exact Or.inr (Or.inl ⟨h5, h⟩)
    rcases le_or_lt 0.3 s with h3 | h3
    · exact Or.inr (Or.inr (Or.inl ⟨h3, h5⟩))
    · exact Or.inr (Or.inr (Or.inr h3))
  · intro h
    unfold classify_severity
    split_ifs <;> first | rfl | linarith
  · intro h5 h7
    unfold classify_severity
    split_ifs <;> first | rfl | linarith
  · intro h3 h5
    unfold classify_severity
    split_ifs <;> first | rfl | linarith
  · intro h3
    unfold classify_severity
    split_ifs <;> first | rfl | linarith
  · unfold classify_severity
    norm_num
  · unfold classify_severity
    norm_num

/-- Witness for C1 at the concrete score 0.75. -/
theorem classify_severity_ladder_witness :
    classify_severity 0.75 = ("CRITICAL", "BLOCK_TRANSACTION_AND_FREEZE_ACCOUNT") :=
  (classify_severity_ladder 0.75 (by norm_num) (by norm_num)).2.1 (by norm_num)

/-- Every amount-analysis score is in [0,1] (helper). -/
theorem amount_score_bounds (amount : ℚ) (u : String) :
    0 ≤ (analyze_transaction_amount amount u).risk_score ∧
    (analyze_transaction_amount amount u).risk_score ≤ 1 := by
  constructor
  · refine le_min ?_ (by norm_num)
    unfold amount_tier_score amount_round_bonus
    split_ifs <;> norm_num
  · exact min_le_right _ _

/-- Every location-analysis score is in [0,1] (helper). -/
theorem location_score_bounds (location : String) (u : String) :
    0 ≤ (analyze_location_pattern location u).risk_score ∧
    (analyze_location_pattern location u).risk_score ≤ 1 := by
  constructor
  · refine le_min ?_ (by norm_num)
    split_ifs <;> norm_num
  · exact min_le_right _ _

/-- Every device-analysis score is in [0,1] (helper). -/
theorem device_score_bounds (device_id : String) (u : String) :
    0 ≤ (analyze_device_pattern device_id u).risk_score ∧
    (analyze_device_pattern device_id u).risk_score ≤ 1 := by
  constructor
  · refine le_min ?_ (by norm_num)
    split_ifs <;> norm_num
  · exact min_le_right _ _

/-- Every time-analysis score is in [0,1] (helper). -/
theorem time_score_bounds (parsed_hour : Option Nat) :
    0 ≤ (analyze_time_pattern parsed_hour).risk_score ∧
    (analyze_time_pattern parsed_hour).risk_score ≤ 1 := by
  cases parsed_hour with
  | none =>
      constructor
      · exact le_min (by norm_num) (by norm_num)
      · exact min_le_right _ _
  | some hour =>
      have hred : analyze_time_pattern (some hour) =
          if hour < 6 ∨ hour > 23 then
            { risk_factors := ["Unusual transaction time: " ++ toString hour ++ ":00"]
              risk_score := min (0.2 : ℚ) 1 }
          else { risk_factors := [], risk_score := min (0 : ℚ) 1 } := rfl
      rw [hred]
      split_ifs <;>
        exact ⟨le_min (by norm_num) (by norm_num), min_le_right _ _⟩

/-- Every velocity-analysis score is in [0,1] (helper). -/
theorem velocity_score_bounds (u : String) (amt : ℚ) :
    0 ≤ (check_velocity_patterns u amt).risk_score ∧
    (check_velocity_patterns u amt).risk_score ≤ 1 := by
  have hv : (check_velocity_patterns u amt).risk_score = 0.2 := by
    show min (0.2 : ℚ) 1 = 0.2
    norm_num
  rw [hv]
  constructor <;> norm_num

/-- C3: the aggregate risk score is the clamped sum of the five per-analyzer
contributions, lies in [0,1], is invariant under any permutation of the
five summands, and the merged factor list is the concatenation of the
analyzers' factor lists in the fixed order amount, location, device, time,
velocity. -/
theorem process_transaction_alert_aggregation (parse_hour : String → Option Nat)
    (ai : String) (t : TransactionData) :
    (process_transaction_alert parse_hour ai t).risk_score =
      min ((analyze_transaction_amount t.amount t.user_id).risk_score +
           (analyze_location_pattern t.location t.user_id).risk_score +
           (analyze_device_pattern t.device_id t.user_id).risk_score +
           (analyze_time_pattern (parse_hour t.timestamp)).risk_score +
           (check_velocity_patterns t.user_id t.amount).risk_score) 1 ∧
    0 ≤ (process_transaction_alert parse_hour ai t).risk_score ∧
    (process_transaction_alert parse_hour ai t).risk_score ≤ 1 ∧
    (∀ l : List ℚ,
      l.Perm [(analyze_transaction_amount t.amount t.user_id).risk_score,
              (analyze_location_pattern t.location t.user_id).risk_score,
              (analyze_device_pattern t.device_id t.user_id).risk_score,
              (analyze_time_pattern (parse_hour t.timestamp)).risk_score,
              (check_velocity_patterns t.user_id t.amount).risk_score] →
        min l.sum 1 = (process_transaction_alert parse_hour ai t).risk_score) ∧
    (process_transaction_alert parse_hour ai t).risk_factors =
      (analyze_transaction_amount t.amount t.user_id).risk_factors ++
      (analyze_location_pattern t.location t.user_id).risk_factors ++
      (analyze_device_pattern t.device_id t.user_id).risk_factors ++
      (analyze_time_pattern (parse_hour t.timestamp)).risk_factors ++
      (check_velocity_patterns t.user_id t.amount).risk_factors := by
  have hsum : (process_transaction_alert parse_hour ai t).risk_score =
      min ((analyze_transaction_amount t.amount t.user_id).risk_score +
           (analyze_location_pattern t.location t.user_id).risk_score +
           (analyze_device_pattern t.device_id t.user_id).risk_score +
           (analyze_time_pattern (parse_hour t.timestamp)).risk_score +
           (check_velocity_patterns t.user_id t.amount).risk_score) 1 := by
    simp only [process_transaction_alert, VelocityResult.toAnalysisResult,
      List.map_cons, List.map_nil, List.sum_cons, List.sum_nil, add_zero]
    congr 1
    ring
  refine ⟨hsum, ?_, ?_, ?_, ?_⟩
  · rw [hsum]
    refine le_min ?_ (by norm_num)
    have h1 := (amount_score_bounds t.amount t.user_id).1
    have h2 := (location_score_bounds t.location t.user_id).1
    have h3 := (device_score_bounds t.device_id t.user_id).1
    have h4 := (time_score_bounds (parse_hour t.timestamp)).1
    have h5 := (velocity_score_bounds t.user_id t.amount).1
    linarith
  · rw [hsum]
    exact min_le_right _ _
  · intro l hl
    rw [hl.sum_eq, hsum]
    simp only [List.sum_cons, List.sum_nil, add_zero]
    congr 1
    ring
  · simp only [process_transaction_alert, VelocityResult.toAnalysisResult,
      List.map_cons, List.map_nil, List.flatten_cons, List.flatten_nil,
      List.append_nil, List.append_assoc]

/-- Witness for C3 at a concrete transaction, instantiating the permutation
hypothesis with the summand list itself. -/
theorem process_transaction_alert_aggregation_witness :
    min ([(analyze_transaction_amount 50 "user_1").risk_score,
          (analyze_location_pattern "New York, NY" "user_1").risk_score,
          (analyze_device_pattern "device_123" "user_1").risk_score,
          (analyze_time_pattern (some 14)).risk_score,
          (check_velocity_patterns "user_1" 50).risk_score] : List ℚ).sum 1 =
      (process_transaction_alert (fun _ => some 14) "narrative"
        { id := "txn_w3", user_id := "user_1", amount := 50, merchant := "Coffee",
          location := "New York, NY", timestamp := "2024-01-15T14:00:00",
          device_id := "device_123", ip_address := "10.0.0.1",
          card_type := "credit" }).risk_score :=
  (process_transaction_alert_aggregation (fun _ => some 14) "narrative"
    { id := "txn_w3", user_id := "user_1", amount := 50, merchant := "Coffee",
      location := "New York, NY", timestamp := "2024-01-15T14:00:00",
      device_id := "device_123", ip_address := "10.0.0.1",
      card_type := "credit" }).2.2.2.1 _ (List.Perm.refl _)

/-- C2: the Response Executor selects its action branch from the alert's
risk score with thresholds identical to the classifier's ladder (the branch
taken corresponds exactly to the classifier's tier for the same score), the
executed action list per tier is fixed in content and order (4 for
CRITICAL, 3 for HIGH, 2 for MEDIUM, 1 otherwise), and the list does not
depend on the alert's factor list or stored severity field. -/
theorem execute_threat_response_ladder (alert_id ai : String) (a : AlertData) :
    ((classify_severity a.risk_score).1 = "CRITICAL" →
      (execute_threat_response alert_id a ai).actions_taken =
        ["Blocked transaction " ++ a.transaction_id,
         "Froze account " ++ a.user_id.getD "unknown" ++ " for 24 hours",
         "Sent urgent fraud alert to " ++ a.user_id.getD "unknown",
         "Logged critical security event"]) ∧
    ((classify_severity a.risk_score).1 = "HIGH" →
      (execute_threat_response alert_id a ai).actions_taken =
        ["Required 2FA verification for " ++ a.user_id.getD "unknown",
         "Sent security alert to " ++ a.user_id.getD "unknown",
         "Logged high-risk security event"]) ∧
    ((classify_severity a.risk_score).1 = "MEDIUM" →
      (execute_threat_response alert_id a ai).actions_taken =
        ["Required SMS verification for " ++ a.user_id.getD "unknown",
         "Logged medium-risk security event"]) ∧
    ((classify_severity a.risk_score).1 = "LOW" →
      (execute_threat_response alert_id a ai).actions_taken =
        ["Logged low-risk security event"]) ∧
    ((classify_severity a.risk_score).1 = "CRITICAL" ↔ 0.7 ≤ a.risk_score) ∧
    (∀ fs : List String,
      execute_threat_response alert_id { a with risk_factors := fs } ai =
        execute_threat_response alert_id a ai) ∧
    (∀ sev : String,
      execute_threat_response alert_id { a with severity := sev } ai =
        execute_threat_response alert_id a ai) := by
  refine ⟨?_, ?_, ?_, ?_, ?_, fun fs => rfl, fun sev => rfl⟩ <;>
    simp only [classify_severity, execute_threat_response] <;>
    split_ifs <;> simp_all

/-- Witness for C2: the CRITICAL branch at the concrete score 0.8. -/
theorem execute_threat_response_ladder_witness :
    (execute_threat_response "a1" c2_alert "r").actions_taken =
      ["Blocked transaction tx1", "Froze account u1 for 24 hours",
       "Sent urgent fraud alert to u1", "Logged critical security event"] :=
  (execute_threat_response_ladder "a1" "r" c2_alert).1 (by norm_num [c2_alert, classify_severity])

/-- C6 counterexample: a transaction with a high amount (2000 > 1000) but no
"unknown" in its location accumulates fallback score exactly 0.3, and
`0.3 > 0.3` is false, so the fallback classifies it LOW / MONITOR_ONLY —
refuting the claim that high amount or unknown location alone gives MEDIUM. -/
theorem fallback_high_amount_is_low :
    c6_txn.amount > 1000 ∧
    (fallback_fraud_alert c6_txn).severity = "LOW" ∧
    (fallback_fraud_alert c6_txn).recommended_action = "MONITOR_ONLY" := by
  have hamt : c6_txn.amount > 1000 := by norm_num [c6_txn]
  have hloc : strContains (strLower c6_txn.location) "unknown" = false := by decide
  refine ⟨hamt, ?_, ?_⟩
  · rw [fallback_severity, hloc, if_pos hamt]
    norm_num
  · rw [fallback_action, hloc, if_pos hamt]
    norm_num

/-- C6 amended: on a pipeline-stage failure the guarded pipeline returns the
fallback alert instead of raising; the fallback keeps the transaction id
and classifies MEDIUM with REQUIRE_BASIC_VERIFICATION exactly when the
amount exceeds 1000 AND the lowercased location contains "unknown" (score
0.5 > 0.3); in every other case it classifies LOW with MONITOR_ONLY. -/
theorem fallback_rule (t : TransactionData) (e : String) :
    process_transaction_alert_guarded (.error e) t = fallback_fraud_alert t ∧
    (fallback_fraud_alert t).transaction_id = t.id ∧
    (((fallback_fraud_alert t).severity = "MEDIUM" ∧
      (fallback_fraud_alert t).recommended_action = "REQUIRE_BASIC_VERIFICATION") ↔
      (t.amount > 1000 ∧ strContains (strLower t.location) "unknown" = true)) ∧
    (¬(t.amount > 1000 ∧ strContains (strLower t.location) "unknown" = true) →
      (fallback_fraud_alert t).severity = "LOW" ∧
      (fallback_fraud_alert t).recommended_action = "MONITOR_ONLY") := by
  refine ⟨rfl, rfl, ?_, ?_⟩
  · rw [fallback_severity, fallback_action]
    rcases Classical.em (t.amount > 1000) with h1 | h1 <;>
      rcases Classical.em (strContains (strLower t.location) "unknown" = true) with h2 | h2 <;>
      simp only [h1, h2, if_true, if_false] <;>
      norm_num <;>
      exact fun hf => absurd hf (by decide)
  · intro hneg
    rw [fallback_severity, fallback_action]
    rcases Classical.em (t.amount > 1000) with h1 | h1 <;>
      rcases Classical.em (strContains (strLower t.location) "unknown" = true) with h2 | h2
    · exact absurd ⟨h1, h2⟩ hneg
    all_goals simp only [h1, h2, if_true, if_false] <;> norm_num

/-- Witness for C6 amended at the concrete transaction `c6_txn`. -/
theorem fallback_rule_witness :
    (fallback_fraud_alert c6_txn).severity = "LOW" ∧
    (fallback_fraud_alert c6_txn).recommended_action = "MONITOR_ONLY" :=
  (fallback_rule c6_txn "stage failure").2.2.2 (fun h => absurd h.2 (by decide))

/-- The scenario-2 amount signal (amount 50) contributes 0 (helper). -/
theorem scenario2_amount_score : (analyze_transaction_amount 50 "user_1").risk_score = 0 := by
  show min (amount_tier_score 50 + amount_round_bonus 50) 1 = 0
  unfold amount_tier_score amount_round_bonus
  rw [isRoundAmount_fifty]
  norm_num

/-- The scenario-2 amount signal carries no factors (helper). -/
theorem scenario2_amount_factors :
    (analyze_transaction_amount 50 "user_1").risk_factors = [] := by
  show amount_tier_factors 50 ++
      (if isRoundAmount 50 then ["Round amount transaction"] else []) = []
  unfold amount_tier_factors
  rw [isRoundAmount_fifty]
  norm_num

/-- The scenario-2 location signal evaluates to the empty contribution
(helper). -/
theorem scenario2_location_eval :
    analyze_location_pattern "New York, NY" "user_1" =
      { risk_factors := [], risk_score := min ((0 : ℚ) + 0) 1 } := rfl

/-- The scenario-2 device signal evaluates to the empty contribution
(helper). -/
theorem scenario2_device_eval :
    analyze_device_pattern "device_123" "user_1" =
      { risk_factors := [], risk_score := min (0 : ℚ) 1 } := rfl

/-- The scenario-2 time signal (hour 14) evaluates to the empty contribution
(helper). -/
theorem scenario2_time_eval :
    analyze_time_pattern (some 14) =
      { risk_factors := [], risk_score := min (0 : ℚ) 1 } := rfl

/-- The scenario-2 velocity factor list (helper). -/
theorem scenario2_velocity_factors :
    (check_velocity_patterns "user_1" 50).risk_factors =
      ["Elevated transaction velocity"] := rfl

/-- The scenario-2 aggregate risk score is exactly 0.2 (helper). -/
theorem scenario2_risk_score_eq : scenario2_alert.risk_score = 0.2 := by
  show (process_transaction_alert scenario2_parse "narrative" scenario2_txn).risk_score = 0.2
  rw [process_score_eq,
    show scenario2_txn.amount = 50 from rfl,
    show scenario2_txn.user_id = "user_1" from rfl,
    show scenario2_txn.location = "New York, NY" from rfl,
    show scenario2_txn.device_id = "device_123" from rfl,
    show scenario2_parse scenario2_txn.timestamp = some 14 from rfl,
    scenario2_amount_score, scenario2_location_eval, scenario2_device_eval,
    scenario2_time_eval, velocity_score_eq]
  norm_num

/-- C7 counterexample: the aggregate score for the scenario-2 transaction is
0.2 — the velocity analyzer's hard-coded simulated count of 3 contributes
0.2 regardless of the supplied velocity count — not 0.0 as claimed. -/
theorem scenario2_score_not_zero :
    scenario2_alert.risk_score = 0.2 ∧ scenario2_alert.risk_score ≠ 0 := by
  refine ⟨scenario2_risk_score_eq, ?_⟩
  rw [scenario2_risk_score_eq]
  norm_num

/-- C7 amended: for the scenario-2 transaction the pipeline produces
aggregate risk score 0.2 (the sole contribution being the velocity
analyzer's constant 0.2), severity LOW, and the Response Executor executes
exactly one action, the log-only action. -/
theorem scenario2_results :
    scenario2_alert.risk_score = 0.2 ∧
    scenario2_alert.severity = "LOW" ∧
    scenario2_alert.risk_factors = ["Elevated transaction velocity"] ∧
    (execute_threat_response scenario2_txn.id
      { transaction_id := scenario2_alert.transaction_id
        user_id := some scenario2_txn.user_id
        risk_score := scenario2_alert.risk_score
        risk_factors := scenario2_alert.risk_factors
        severity := scenario2_alert.severity } "resp").actions_taken =
      ["Logged low-risk security event"] := by
  refine ⟨scenario2_risk_score_eq, ?_, ?_, ?_⟩
  · have h : scenario2_alert.severity =
        (classify_severity scenario2_alert.risk_score).1 :=
      process_severity_eq scenario2_parse "narrative" scenario2_txn
    rw [h, scenario2_risk_score_eq]
    norm_num [classify_severity]
  · have h : scenario2_alert.risk_factors =
        (analyze_transaction_amount scenario2_txn.amount scenario2_txn.user_id).risk_factors ++
        (analyze_location_pattern scenario2_txn.location scenario2_txn.user_id).risk_factors ++
        (analyze_device_pattern scenario2_txn.device_id scenario2_txn.user_id).risk_factors ++
        (analyze_time_pattern (scenario2_parse scenario2_txn.timestamp)).risk_factors ++
        (check_velocity_patterns scenario2_txn.user_id scenario2_txn.amount).risk_factors :=
      process_factors_eq scenario2_parse "narrative" scenario2_txn
    rw [h,
      show scenario2_txn.amount = 50 from rfl,
      show scenario2_txn.user_id = "user_1" from rfl,
      show scenario2_txn.location = "New York, NY" from rfl,
      show scenario2_txn.device_id = "device_123" from rfl,
      show scenario2_parse scenario2_txn.timestamp = some 14 from rfl,
      scenario2_amount_factors, scenario2_location_eval, scenario2_device_eval,
      scenario2_time_eval, scenario2_velocity_factors]
    simp
  · simp only [execute_threat_response, scenario2_risk_score_eq]
    norm_num

/-- C4 (code bug): the ingestion handler `analyze_transaction` always raises:
after generating and storing the alert it evaluates the unbound name
`transaction_data` (main.py line 341), and its blanket except clause turns
that NameError into HTTP 500 — so the caller never receives the summary
body and the record is never enqueued on the transaction queue. -/
theorem analyze_transaction_always_500 (parse_hour : String → Option Nat)
    (ai : String) (s : ApplicationState) (t : TransactionData) :
    (analyze_transaction parse_hour ai s t).2 =
      .error { status_code := 500, detail := "NameError: name transaction_data is not defined" } ∧
    (analyze_transaction parse_hour ai s t).1.transaction_queue = s.transaction_queue :=
  ⟨rfl, rfl⟩

/-- C5 (code bug): responding to an alert identifier absent from the store
raises HTTPException(404) inside the handler's own try block; the blanket
except clause catches it, increments the threat-response error counter, and
re-raises it as HTTP 500 — so the client sees a 500 (whose detail merely
quotes the 404) and the error counter IS mutated. The alert store, the
observer set, and the remaining counters are unchanged. -/
theorem respond_to_alert_missing (s : ApplicationState) (alert_id ai : String)
    (h : s.active_alerts.lookup alert_id = none) :
    (respond_to_alert s alert_id ai).2 =
      .error { status_code := 500, detail := "404: Alert not found" } ∧
    (respond_to_alert s alert_id ai).1.threat_response.errors =
      s.threat_response.errors + 1 ∧
    (respond_to_alert s alert_id ai).1.active_alerts = s.active_alerts ∧
    (respond_to_alert s alert_id ai).1.websocket_connections = s.websocket_connections ∧
    (respond_to_alert s alert_id ai).1.threat_response.processed =
      s.threat_response.processed ∧
    (respond_to_alert s alert_id ai).1.fraud_detection = s.fraud_detection := by
  unfold respond_to_alert
  rw [h]
  exact ⟨rfl, rfl, rfl, rfl, rfl, rfl⟩

/-- Witness for C5 at the initial (empty) application state. -/
theorem respond_to_alert_missing_witness :
    (respond_to_alert initial_state "missing" "r").2 =
      .error { status_code := 500, detail := "404: Alert not found" } ∧
    (respond_to_alert initial_state "missing" "r").1.threat_response.errors =
      initial_state.threat_response.errors + 1 ∧
    (respond_to_alert initial_state "missing" "r").1.active_alerts =
      initial_state.active_alerts ∧
    (respond_to_alert initial_state "missing" "r").1.websocket_connections =
      initial_state.websocket_connections ∧
    (respond_to_alert initial_state "missing" "r").1.threat_response.processed =
      initial_state.threat_response.processed ∧
    (respond_to_alert initial_state "missing" "r").1.fraud_detection =
      initial_state.fraud_detection :=
  respond_to_alert_missing initial_state "missing" "r" rfl

end VigilantSentinel
